import Mathlib

/-
Shallow embedding of the SemanticSearch repository (emilianobilli/SemanticSearch).

Sources embedded:
  src/embed.py   : TextChunker (token-window splitting), TextEmbedding.embed_query
  src/search.py  : SemanticSearch.embed_document / search / retrieve / delete
  src/model.py   : Document, DocumentChunk records
  src/schema.py  : result/response shapes

External collaborators (victordb record store and vector index, the transformer
tokenizer and encoder) are modelled as explicit state plus oracle functions for
their success/failure outcomes, following the collaborator contracts: the record
store assigns fresh identities on save, and insert/delete either succeed or fail.
Python exceptions raised by a collaborator call are modelled as a falsy oracle
value at that call site; machine floats carried opaquely (distances, vector
components) are modelled as integers since no arithmetic is ever performed on
them by the embedded code.
-/

/-- Embedding vectors: components are opaque to all embedded code (only emptiness
and equality of identities matter), modelled as integer lists. -/
abbrev Vec := List Int

/-- Python's `not s.strip()`: `s.strip()` is empty exactly when every character
of `s` is whitespace (vacuously for the empty string). -/
def strippedEmpty (s : String) : Bool := s.toList.all Char.isWhitespace

/-- src/embed.py `TextChunker`: stored configuration after `__init__` clamping. -/
structure TextChunker where
  target_len : Int
  overlap : Int
deriving DecidableEq

/-- src/embed.py `TextChunker.__init__`: `model_max = 512`;
`target_len = min(target_len, model_max - 20)`;
`overlap = max(0, min(overlap, target_len - 1))`. -/
def TextChunker.init (target_len overlap : Int) : TextChunker :=
  let model_max : Int := 512
  let t := min target_len (model_max - 20)
  ⟨t, max 0 (min overlap (t - 1))⟩

/-- src/embed.py `TextChunker.split`, parameterised by the tokenizer's
`encode`/`decode`. Returns `none` for the Python `ValueError` raised by
`range(0, n, 0)` when the stride is zero; a negative stride makes the Python
range empty, yielding no windows. The source's `if not window: break` guard can
never fire because every start index is `< len(ids)`, so each window is a
non-empty slice. -/
def TextChunker.split (c : TextChunker) (encode : String → List Nat)
    (decode : List Nat → String) (text : String) : Option (List String) :=
  if text = "" ∨ strippedEmpty text then some []
  else
    let ids := encode text
    if (ids.length : Int) ≤ c.target_len then some [text]
    else
      let stride : Int := c.target_len - c.overlap
      if stride = 0 then none
      else if stride < 0 then some []
      else
        let s := stride.toNat
        let tlen := c.target_len.toNat
        let starts := (List.range ids.length).filter (fun i => i % s == 0)
        some (((starts.map (fun st => decode ((ids.drop st).take tlen))).filter
          (fun t => t != "" && !strippedEmpty t)))

/-- src/embed.py `TextEmbedding.embed_query`, parameterised by the opaque
encoder: `if not query or not query.strip(): return []`, else one encoded
vector. -/
def TextEmbedding.embed_query (enc : String → Vec) (query : String) : Vec :=
  if query = "" ∨ strippedEmpty query then [] else enc query

/-- src/model.py `Document` (record fields; identity lives in the store map). -/
structure Document where
  title : String
  author : String
  source : String
  raw_text : String
  metadata : List String
deriving DecidableEq

/-- src/model.py `DocumentChunk` (record fields; identity lives in the store map). -/
structure DocumentChunk where
  document_id : Nat
  content : String
  position : Nat
deriving DecidableEq

/-- src/schema.py `DocumentCreateRequest`. -/
structure DocumentCreateRequest where
  title : String
  author : String
  source : String
  raw_text : String
  metadata : List String
deriving DecidableEq

/-- Combined state of the two external collaborators: the victordb record store
(documents and chunks keyed by their store-assigned identities, with the next
fresh identity per table) and the vector index (identity/vector pairs). -/
structure World where
  docs : List (Nat × Document)
  chunks : List (Nat × DocumentChunk)
  index : List (Nat × Vec)
  nextDocId : Nat
  nextChunkId : Nat
deriving DecidableEq

/-- A fresh system: empty store and index; identities are assigned from 1
(victordb identities are truthy in the source's `if chunk.id:` guards). -/
def emptyWorld : World := ⟨[], [], [], 1, 1⟩

/-- src/schema.py `Union[SuccessResponse, ErrorDetail]` as a tagged result. -/
inductive Outcome where
  | success (message : String)
  | error (code message : String)
deriving DecidableEq

def Outcome.isSuccess : Outcome → Bool
  | .success _ => true
  | .error _ _ => false

/-- The per-pair loop of src/search.py `SemanticSearch.embed_document`
(lines 56-71): for each `(vector, raw_text)` pair build a chunk with
`position = total_chunks + 1`; if `chunk.save` succeeds (oracle `sOk` at the
pair's index) try `index.insert` (oracle `iOk`); on insert success count the
chunk, on insert exception compensate with `chunk.delete` (oracle `dOk`).
Returns the final world and `total_chunks`. -/
def ingestChunks (sOk iOk dOk : Nat → Bool) (docId : Nat) :
    List (Vec × String) → World → Nat → Nat → World × Nat
  | [], w, total, _ => (w, total)
  | (v, txt) :: rest, w, total, k =>
    let cid := w.nextChunkId
    if sOk k then
      let w1 : World := { w with chunks := w.chunks ++ [(cid, ⟨docId, txt, total + 1⟩)],
                                 nextChunkId := cid + 1 }
      if iOk k then
        ingestChunks sOk iOk dOk docId rest
          { w1 with index := w1.index ++ [(cid, v)] } (total + 1) (k + 1)
      else
        let w2 : World := if dOk k then
            { w1 with chunks := w1.chunks.filter (fun p => p.1 != cid) } else w1
        ingestChunks sOk iOk dOk docId rest w2 total (k + 1)
    else
      ingestChunks sOk iOk dOk docId rest w total (k + 1)

/-- src/search.py `SemanticSearch.embed_document`: build the Document from the
request, save it (oracle `docSaveOk`; failure returns DOCUMENT_SAVE_FAILED with
no state change), chunk-and-embed the raw text (`ep`, standing for
`TextEmbedding.embed_passage`; an empty result returns NO_CHUNKS_GENERATED),
run the per-pair loop, and return SuccessResponse unconditionally. -/
def SemanticSearch.embed_document (ep : String → List (Vec × String)) (docSaveOk : Bool)
    (sOk iOk dOk : Nat → Bool) (document : DocumentCreateRequest) (w : World) :
    Outcome × World :=
  let doc : Document :=
    ⟨document.title, document.author, document.source, document.raw_text, document.metadata⟩
  if docSaveOk then
    let docId := w.nextDocId
    let w0 : World := { w with docs := w.docs ++ [(docId, doc)], nextDocId := docId + 1 }
    let raw_chunks := ep document.raw_text
    if raw_chunks.isEmpty then
      (Outcome.error "NO_CHUNKS_GENERATED"
        "No chunks could be generated from the document content", w0)
    else
      let r := ingestChunks sOk iOk dOk docId raw_chunks w0 0 0
      (Outcome.success "Document ingested successfully", r.1)
  else
    (Outcome.error "DOCUMENT_SAVE_FAILED" "Failed to save document", w)

/-- src/schema.py `ChunkDetail` (identities as numbers; the source stringifies
them for JSON transport only). -/
structure ChunkDetail where
  id : Nat
  document_id : Nat
  content : String
  position : Nat
deriving DecidableEq

/-- src/schema.py `ChunkWithScore`; the distance is an opaque pass-through
score from the index. -/
structure ChunkWithScore where
  chunk : ChunkDetail
  distance : Int
deriving DecidableEq

/-- src/search.py search outcome: `Union[SearchResult, ErrorDetail]`. -/
inductive SearchResp where
  | result (query : String) (total_found : Nat) (results : List ChunkWithScore)
  | error (code message : String)
deriving DecidableEq

/-- Body of the result loop of src/search.py `SemanticSearch.search` (lines
89-102): `DocumentChunk.get(self.session, chunk_id)`; a resolvable chunk is
wrapped as `ChunkWithScore`, an unresolvable identity contributes nothing. -/
def resolveHit (w : World) (hit : Nat × Int) : Option ChunkWithScore :=
  (w.chunks.lookup hit.1).map
    (fun ch => ⟨⟨hit.1, ch.document_id, ch.content, ch.position⟩, hit.2⟩)

/-- src/search.py `SemanticSearch.search`: embed the query, call the index
(`indexSearch`; `none` models a raised exception, answered by a SEARCH_FAILED
error), resolve each `(chunk_id, distance)` hit in rank order, and report
`total_found = len(elements)`. -/
def SemanticSearch.search (indexSearch : Vec → Nat → Option (List (Nat × Int)))
    (enc : String → Vec) (query : String) (limit : Nat) (w : World) : SearchResp :=
  let vector := TextEmbedding.embed_query enc query
  match indexSearch vector limit with
  | none => SearchResp.error "SEARCH_FAILED" "index search raised"
  | some results => SearchResp.result query (results.filterMap (resolveHit w)).length
      (results.filterMap (resolveHit w))

/-- Modelled from the spec: the victordb `VictorIndexClient.search` collaborator
is not part of this repository's sources. Per the §6 contract it returns an
ordered hit list of `(id, distance)` pairs for a query vector, the
nearest-neighbor ranking algorithm itself being out of scope (kept opaque as
`rank`); per §4.4 an empty query embedding yields the empty hit list rather
than an error. -/
def victorIndexSearch (rank : List (Nat × Vec) → Vec → Nat → List (Nat × Int))
    (entries : List (Nat × Vec)) (v : Vec) (limit : Nat) : Option (List (Nat × Int)) :=
  if v = [] then some [] else some (rank entries v limit)

/-- src/schema.py `DocumentDetail`. -/
structure DocumentDetail where
  id : Nat
  title : String
  author : String
  source : String
  raw_text : String
  metadata : List String
deriving DecidableEq

/-- src/search.py retrieve outcome: `Union[DocumentDetail, ErrorDetail]`. -/
inductive RetrieveResp where
  | detail (d : DocumentDetail)
  | error (code message : String)
deriving DecidableEq

/-- src/search.py `SemanticSearch.retrieve`: `Document.get` inside try/except
(`readOk = false` models a raised store read, answered by RETRIEVE_FAILED);
a missing document answers DOCUMENT_NOT_FOUND; otherwise the record's fields
are copied into a `DocumentDetail`. The collaborator state is threaded through
unchanged, mirroring that the method only issues the one read. -/
def SemanticSearch.retrieve (readOk : Bool) (document_id : Nat) (w : World) :
    RetrieveResp × World :=
  if readOk then
    match w.docs.lookup document_id with
    | none => (RetrieveResp.error "DOCUMENT_NOT_FOUND" "Document not found", w)
    | some d =>
      (RetrieveResp.detail ⟨document_id, d.title, d.author, d.source, d.raw_text, d.metadata⟩, w)
  else
    (RetrieveResp.error "RETRIEVE_FAILED" "Error retrieving document", w)

/-- The per-chunk loop of src/search.py `SemanticSearch.delete` (lines 146-157):
for each enumerated chunk, `if chunk.id: self.index.delete(chunk.id)` inside
try/except (oracle `iD`; a false value models either a raised index call,
swallowed by the except arm, or an identity-less chunk), then
`chunk.delete(self.session)` (oracle `rD`), counting successful record
deletions. -/
def deleteChunksLoop (iD rD : Nat → Bool) :
    List (Nat × DocumentChunk) → World → Nat → Nat → World × Nat
  | [], w, deleted, _ => (w, deleted)
  | (cid, _) :: rest, w, deleted, k =>
    let w1 : World := if cid ≠ 0 ∧ iD k = true then
        { w with index := w.index.filter (fun p => p.1 != cid) } else w
    if rD k then
      deleteChunksLoop iD rD rest
        { w1 with chunks := w1.chunks.filter (fun p => p.1 != cid) } (deleted + 1) (k + 1)
    else
      deleteChunksLoop iD rD rest w1 deleted (k + 1)

/-- src/search.py `SemanticSearch.delete`: resolve the Document (`getOk = false`
models a raised read, answered by DELETE_FAILED), enumerate its chunks with
`DocumentChunk.query_eq(..., "document_id", document_id)`, run the per-chunk
loop, then delete the Document record last (oracle `docDelOk`); overall success
is returned exactly when the Document record deletion succeeds. -/
def SemanticSearch.delete (getOk : Bool) (iD rD : Nat → Bool) (docDelOk : Bool)
    (document_id : Nat) (w : World) : Outcome × World :=
  if getOk then
    match w.docs.lookup document_id with
    | none => (Outcome.error "DOCUMENT_NOT_FOUND" "Document not found", w)
    | some _d =>
      let chs := w.chunks.filter (fun p => p.2.document_id == document_id)
      let r := deleteChunksLoop iD rD chs w 0 0
      if docDelOk then
        (Outcome.success "Document and chunks deleted successfully",
          { r.1 with docs := r.1.docs.filter (fun p => p.1 != document_id) })
      else
        (Outcome.error "DELETE_FAILED" "Failed to delete document from database", r.1)
  else
    (Outcome.error "DELETE_FAILED" "Error deleting document", w)

/-- Proof-side output of the per-pair ingest loop: the chunk records and index
entries added, the next fresh chunk identity, and the final `total_chunks`. -/
structure IngestOut where
  cs : List (Nat × DocumentChunk)
  es : List (Nat × Vec)
  cid : Nat
  total : Nat
deriving DecidableEq

/-- Proof-side description of `ingestChunks` when every compensating delete
succeeds: a pair survives exactly when its save and index-insert oracles both
answer true, each successful save consumes one chunk identity, and each
survivor bumps `total_chunks`. -/
def ingestSpec (sOk iOk : Nat → Bool) (docId : Nat) :
    List (Vec × String) → Nat → Nat → Nat → IngestOut
  | [], cid, _, total => ⟨[], [], cid, total⟩
  | (v, txt) :: rest, cid, k, total =>
    if sOk k then
      if iOk k then
        let r := ingestSpec sOk iOk docId rest (cid + 1) (k + 1) (total + 1)
        ⟨(cid, ⟨docId, txt, total + 1⟩) :: r.cs, (cid, v) :: r.es, r.cid, r.total⟩
      else ingestSpec sOk iOk docId rest (cid + 1) (k + 1) total
    else ingestSpec sOk iOk docId rest cid (k + 1) total

/-- The parent-document identities listed by a search response, in rank order. -/
def resultDocIds : SearchResp → List Nat
  | .result _ _ rs => rs.map (fun e => e.chunk.document_id)
  | .error _ _ => []

theorem filter_append_singleton_fresh (l : List (Nat × DocumentChunk)) (cid : Nat)
    (c : DocumentChunk) (h : ∀ p ∈ l, p.1 < cid) :
    (l ++ [(cid, c)]).filter (fun p => p.1 != cid) = l := by
  have h1 : l.filter (fun p => p.1 != cid) = l :=
    List.filter_eq_self.mpr (fun p hp => by simpa using Nat.ne_of_lt (h p hp))
  simp [List.filter_append, h1]

theorem fresh_snoc (l : List (Nat × DocumentChunk)) (n : Nat) (c : DocumentChunk)
    (h : ∀ p ∈ l, p.1 < n) : ∀ p ∈ l ++ [(n, c)], p.1 < n + 1 := by
  intro p hp
  rcases List.mem_append.mp hp with h1 | h1
  · exact Nat.lt_succ_of_lt (h p h1)
  · rcases List.mem_singleton.mp h1 with rfl
    exact Nat.lt_succ_self n

theorem ingestChunks_eq_spec (sOk iOk : Nat → Bool) (docId : Nat)
    (pairs : List (Vec × String)) :
    ∀ (w : World) (total k : Nat), (∀ p ∈ w.chunks, p.1 < w.nextChunkId) →
      ingestChunks sOk iOk (fun _ => true) docId pairs w total k =
        (⟨w.docs, w.chunks ++ (ingestSpec sOk iOk docId pairs w.nextChunkId k total).cs,
          w.index ++ (ingestSpec sOk iOk docId pairs w.nextChunkId k total).es,
          w.nextDocId, (ingestSpec sOk iOk docId pairs w.nextChunkId k total).cid⟩,
         (ingestSpec sOk iOk docId pairs w.nextChunkId k total).total) := by
  induction pairs with
  | nil => intro w total k _; simp [ingestChunks, ingestSpec]
  | cons hd rest ih =>
    obtain ⟨v, txt⟩ := hd
    intro w total k hfresh
    by_cases hs : sOk k
    · by_cases hi : iOk k
      · rw [ingestChunks]
        simp only [hs, hi, if_true]
        rw [ih _ _ _ (fresh_snoc w.chunks w.nextChunkId ⟨docId, txt, total + 1⟩ hfresh)]
        simp [ingestSpec, hs, hi, List.append_assoc]
      · rw [ingestChunks]
        simp only [hs, if_true]
        rw [if_neg hi]
        rw [filter_append_singleton_fresh w.chunks w.nextChunkId ⟨docId, txt, total + 1⟩ hfresh]
        rw [ih ⟨w.docs, w.chunks, w.index, w.nextDocId, w.nextChunkId + 1⟩ total (k + 1)
          (fun p hp => Nat.lt_succ_of_lt (hfresh p hp))]
        simp [ingestSpec, hs, hi]
    · rw [ingestChunks]
      rw [if_neg hs]
      rw [ih _ _ _ hfresh]
      simp [ingestSpec, hs]

theorem ingestSpec_map_fst (sOk iOk : Nat → Bool) (docId : Nat)
    (pairs : List (Vec × String)) :
    ∀ (cid k total : Nat),
      (ingestSpec sOk iOk docId pairs cid k total).cs.map Prod.fst =
        (ingestSpec sOk iOk docId pairs cid k total).es.map Prod.fst := by
  induction pairs with
  | nil => intro cid k total; simp [ingestSpec]
  | cons hd rest ih =>
    obtain ⟨v, txt⟩ := hd
    intro cid k total
    by_cases hs : sOk k <;> by_cases hi : iOk k <;>
      simp [ingestSpec, hs, hi, ih]

theorem ingestSpec_lengths (sOk iOk : Nat → Bool) (docId : Nat)
    (pairs : List (Vec × String)) (cid k total : Nat) :
    (ingestSpec sOk iOk docId pairs cid k total).cs.length =
      (ingestSpec sOk iOk docId pairs cid k total).es.length := by
  have h := ingestSpec_map_fst sOk iOk docId pairs cid k total
  have := congrArg List.length h
  simpa using this

theorem ingestSpec_positions (sOk iOk : Nat → Bool) (docId : Nat)
    (pairs : List (Vec × String)) :
    ∀ (cid k total : Nat),
      (ingestSpec sOk iOk docId pairs cid k total).cs.map (fun p => p.2.position) =
        List.range' (total + 1) (ingestSpec sOk iOk docId pairs cid k total).cs.length := by
  induction pairs with
  | nil => intro cid k total; simp [ingestSpec]
  | cons hd rest ih =>
    obtain ⟨v, txt⟩ := hd
    intro cid k total
    by_cases hs : sOk k <;> by_cases hi : iOk k <;>
      simp [ingestSpec, hs, hi, ih, List.range'_succ]

theorem ingestSpec_contents_sublist (sOk iOk : Nat → Bool) (docId : Nat)
    (pairs : List (Vec × String)) :
    ∀ (cid k total : Nat),
      List.Sublist ((ingestSpec sOk iOk docId pairs cid k total).cs.map (fun p => p.2.content))
        (pairs.map Prod.snd) := by
  induction pairs with
  | nil => intro cid k total; simp [ingestSpec]
  | cons hd rest ih =>
    obtain ⟨v, txt⟩ := hd
    intro cid k total
    by_cases hs : sOk k <;> by_cases hi : iOk k <;>
      simp only [ingestSpec, hs, hi, if_true, if_false, List.map_cons]
    · exact List.Sublist.cons₂ txt (ih (cid + 1) (k + 1) (total + 1))
    · exact List.Sublist.cons txt (ih (cid + 1) (k + 1) total)
    · exact List.Sublist.cons txt (ih cid (k + 1) total)
    · exact List.Sublist.cons txt (ih cid (k + 1) total)

theorem ingestSpec_length_all (sOk iOk : Nat → Bool) (docId : Nat)
    (pairs : List (Vec × String)) :
    ∀ (cid k total : Nat), (∀ i, k ≤ i → i < k + pairs.length → sOk i = true ∧ iOk i = true) →
      (ingestSpec sOk iOk docId pairs cid k total).cs.length = pairs.length := by
  induction pairs with
  | nil => intro cid k total _; simp [ingestSpec]
  | cons hd rest ih =>
    obtain ⟨v, txt⟩ := hd
    intro cid k total hall
    have hk := hall k (Nat.le_refl k) (by simp)
    have hr := ih (cid + 1) (k + 1) (total + 1)
      (fun i h1 h2 => hall i (by omega) (by simp at h2 ⊢; omega))
    simp [ingestSpec, hk.1, hk.2, hr]

theorem ingestSpec_length_one_failure (sOk iOk : Nat → Bool) (docId j : Nat)
    (pairs : List (Vec × String)) :
    ∀ (cid k total : Nat), k ≤ j → j < k + pairs.length →
      (∀ i, k ≤ i → i < k + pairs.length → sOk i = true ∧ (i ≠ j → iOk i = true)) →
      iOk j = false →
      (ingestSpec sOk iOk docId pairs cid k total).cs.length = pairs.length - 1 := by
  induction pairs with
  | nil => intro cid k total h1 h2 _ _; simp at h2; omega
  | cons hd rest ih =>
    obtain ⟨v, txt⟩ := hd
    intro cid k total hkj hjlt hall hj
    have hsk : sOk k = true := (hall k (Nat.le_refl k) (by simp)).1
    by_cases hk : k = j
    · subst hk
      have hr := ingestSpec_length_all sOk iOk docId rest (cid + 1) (k + 1) total
        (fun i hi1 hi2 => ⟨(hall i (by omega) (by simp; omega)).1,
          (hall i (by omega) (by simp; omega)).2 (by omega)⟩)
      simp [ingestSpec, hsk, hj, hr]
    · have hik : iOk k = true := (hall k (Nat.le_refl k) (by simp)).2 hk
      have hjlt' : j < k + 1 + rest.length := by simp at hjlt; omega
      have hrec := ih (cid + 1) (k + 1) (total + 1) (by omega) hjlt'
        (fun i hi1 hi2 => hall i (by omega) (by simp; omega)) hj
      simp only [ingestSpec, hsk, hik, if_true, List.length_cons]
      rw [hrec]
      omega

theorem embed_document_from_empty (ep : String → List (Vec × String)) (sOk iOk : Nat → Bool)
    (req : DocumentCreateRequest) (h : ep req.raw_text ≠ []) :
    SemanticSearch.embed_document ep true sOk iOk (fun _ => true) req emptyWorld =
      (Outcome.success "Document ingested successfully",
       ⟨[(1, ⟨req.title, req.author, req.source, req.raw_text, req.metadata⟩)],
        (ingestSpec sOk iOk 1 (ep req.raw_text) 1 0 0).cs,
        (ingestSpec sOk iOk 1 (ep req.raw_text) 1 0 0).es,
        2, (ingestSpec sOk iOk 1 (ep req.raw_text) 1 0 0).cid⟩) := by
  have hb := ingestChunks_eq_spec sOk iOk 1 (ep req.raw_text)
    ⟨[(1, ⟨req.title, req.author, req.source, req.raw_text, req.metadata⟩)], [], [], 2, 1⟩ 0 0
    (by intro p hp; simp at hp)
  have hie : (ep req.raw_text).isEmpty = false := by
    cases hep : ep req.raw_text <;> simp_all
  simp only [SemanticSearch.embed_document, emptyWorld, hie, Bool.false_eq_true, if_false,
    if_true, List.nil_append]
  rw [hb]
  simp

/-- C2 counterexample: a document whose single chunk fails to persist — zero
chunks survive in the record store and the index — yet `embed_document`
reports success. -/
theorem C2_counterexample :
    (SemanticSearch.embed_document (fun _ => [([1], "a")]) true (fun _ => false)
        (fun _ => true) (fun _ => true) ⟨"t", "", "", "x", []⟩ emptyWorld).1.isSuccess = true ∧
    (SemanticSearch.embed_document (fun _ => [([1], "a")]) true (fun _ => false)
        (fun _ => true) (fun _ => true) ⟨"t", "", "", "x", []⟩ emptyWorld).2.chunks = [] ∧
    (SemanticSearch.embed_document (fun _ => [([1], "a")]) true (fun _ => false)
        (fun _ => true) (fun _ => true) ⟨"t", "", "", "x", []⟩ emptyWorld).2.index = [] := by
  decide

/-- C2 (amended): `embed_document` reports success exactly when the Document
record saved and chunking produced at least one raw `(vector, text)` pair,
regardless of how many chunks were persisted and indexed — a document saved
with zero surviving chunks is still reported as a success. -/
theorem C2_success_ignores_surviving_chunks (ep : String → List (Vec × String))
    (docSaveOk : Bool) (sOk iOk dOk : Nat → Bool) (req : DocumentCreateRequest) (w : World) :
    (SemanticSearch.embed_document ep docSaveOk sOk iOk dOk req w).1.isSuccess =
      (docSaveOk && !(ep req.raw_text).isEmpty) := by
  cases docSaveOk <;> cases h : (ep req.raw_text).isEmpty <;>
    simp [SemanticSearch.embed_document, h, Outcome.isSuccess]

/-- C3: when the index insert fails for exactly one pair out of N while the
document save, every record save and the compensating delete succeed, the
orchestrator deletes the orphaned record and continues: exactly N−1 chunk
records and N−1 index entries remain, with matching identities. -/
theorem C3_compensating_delete (pairs : List (Vec × String)) (j : Nat)
    (req : DocumentCreateRequest) (hj : j < pairs.length) :
    (SemanticSearch.embed_document (fun _ => pairs) true (fun _ => true) (fun x => x != j)
        (fun _ => true) req emptyWorld).2.chunks.length = pairs.length - 1 ∧
    (SemanticSearch.embed_document (fun _ => pairs) true (fun _ => true) (fun x => x != j)
        (fun _ => true) req emptyWorld).2.index.length = pairs.length - 1 ∧
    (SemanticSearch.embed_document (fun _ => pairs) true (fun _ => true) (fun x => x != j)
        (fun _ => true) req emptyWorld).2.chunks.map Prod.fst =
      (SemanticSearch.embed_document (fun _ => pairs) true (fun _ => true) (fun x => x != j)
        (fun _ => true) req emptyWorld).2.index.map Prod.fst := by
  have hne : pairs ≠ [] := by intro hemp; rw [hemp] at hj; simp at hj
  rw [embed_document_from_empty (fun _ => pairs) (fun _ => true) (fun x => x != j) req hne]
  have hlen := ingestSpec_length_one_failure (fun _ => true) (fun x => x != j) 1 j pairs 1 0 0
    (Nat.zero_le j) (by omega) (fun i _ _ => ⟨rfl, fun hij => by simp [hij]⟩) (by simp)
  refine ⟨hlen, ?_, ingestSpec_map_fst (fun _ => true) (fun x => x != j) 1 pairs 1 0 0⟩
  rw [← ingestSpec_lengths]
  exact hlen

/-- C3 witness: two pairs with the index insert failing for the first. -/
theorem C3_witness :
    (0 : Nat) < ([(([1] : Vec), "a"), ([2], "b")] : List (Vec × String)).length ∧
    ((SemanticSearch.embed_document (fun _ => [(([1] : Vec), "a"), ([2], "b")]) true
        (fun _ => true) (fun x => x != 0) (fun _ => true) ⟨"t", "", "", "x", []⟩
        emptyWorld).2.chunks.length =
        ([(([1] : Vec), "a"), ([2], "b")] : List (Vec × String)).length - 1 ∧
     (SemanticSearch.embed_document (fun _ => [(([1] : Vec), "a"), ([2], "b")]) true
        (fun _ => true) (fun x => x != 0) (fun _ => true) ⟨"t", "", "", "x", []⟩
        emptyWorld).2.index.length =
        ([(([1] : Vec), "a"), ([2], "b")] : List (Vec × String)).length - 1 ∧
     (SemanticSearch.embed_document (fun _ => [(([1] : Vec), "a"), ([2], "b")]) true
        (fun _ => true) (fun x => x != 0) (fun _ => true) ⟨"t", "", "", "x", []⟩
        emptyWorld).2.chunks.map Prod.fst =
       (SemanticSearch.embed_document (fun _ => [(([1] : Vec), "a"), ([2], "b")]) true
        (fun _ => true) (fun x => x != 0) (fun _ => true) ⟨"t", "", "", "x", []⟩
        emptyWorld).2.index.map Prod.fst) :=
  ⟨by decide, C3_compensating_delete [([1], "a"), ([2], "b")] 0 ⟨"t", "", "", "x", []⟩ (by decide)⟩

/-- C6 counterexample: two pairs where the first record save fails and the
second fully succeeds — the second input pair is persisted with ordinal
position 1, not its 1-based input index 2. -/
theorem C6_counterexample :
    (SemanticSearch.embed_document (fun _ => [([1], "a"), ([2], "b")]) true
        (fun k => k == 1) (fun _ => true) (fun _ => true) ⟨"t", "", "", "x", []⟩
        emptyWorld).2.chunks.map (fun p => (p.2.content, p.2.position)) = [("b", 1)] := by
  decide

/-- C6 (amended): pairs are processed in input order and the surviving chunk
records (compensating deletes succeeding) carry consecutive ordinal positions
1..m following input order; a pair whose record save or index insert fails does
not consume a position, so the i-th pair's position equals i only when every
earlier pair survived. -/
theorem C6_positions_consecutive (pairs : List (Vec × String)) (sOk iOk : Nat → Bool)
    (req : DocumentCreateRequest) (h : pairs ≠ []) :
    (SemanticSearch.embed_document (fun _ => pairs) true sOk iOk (fun _ => true) req
        emptyWorld).2.chunks.map (fun p => p.2.position) =
      List.range' 1 (SemanticSearch.embed_document (fun _ => pairs) true sOk iOk (fun _ => true)
        req emptyWorld).2.chunks.length ∧
    List.Sublist ((SemanticSearch.embed_document (fun _ => pairs) true sOk iOk (fun _ => true)
        req emptyWorld).2.chunks.map (fun p => p.2.content)) (pairs.map Prod.snd) := by
  rw [embed_document_from_empty (fun _ => pairs) sOk iOk req h]
  exact ⟨ingestSpec_positions sOk iOk 1 pairs 1 0 0,
    ingestSpec_contents_sublist sOk iOk 1 pairs 1 0 0⟩

/-- C6 witness: one pair, every step succeeding. -/
theorem C6_witness :
    ([(([1] : Vec), "a")] : List (Vec × String)) ≠ [] ∧
    ((SemanticSearch.embed_document (fun _ => [(([1] : Vec), "a")]) true (fun _ => true)
        (fun _ => true) (fun _ => true) ⟨"t", "", "", "x", []⟩
        emptyWorld).2.chunks.map (fun p => p.2.position) =
      List.range' 1 (SemanticSearch.embed_document (fun _ => [(([1] : Vec), "a")]) true
        (fun _ => true) (fun _ => true) (fun _ => true) ⟨"t", "", "", "x", []⟩
        emptyWorld).2.chunks.length ∧
     List.Sublist ((SemanticSearch.embed_document (fun _ => [(([1] : Vec), "a")]) true
        (fun _ => true) (fun _ => true) (fun _ => true) ⟨"t", "", "", "x", []⟩
        emptyWorld).2.chunks.map (fun p => p.2.content))
       (([(([1] : Vec), "a")] : List (Vec × String)).map Prod.snd)) :=
  ⟨by decide, C6_positions_consecutive [([1], "a")] (fun _ => true) (fun _ => true)
    ⟨"t", "", "", "x", []⟩ (by decide)⟩

theorem filterMap_resolveHit_ids (w : World) (hits : List (Nat × Int)) :
    (hits.filterMap (resolveHit w)).map (fun e => e.chunk.id) =
      (hits.map Prod.fst).filter (fun cid => (w.chunks.lookup cid).isSome) := by
  induction hits with
  | nil => simp
  | cons hd rest ih =>
    obtain ⟨cid, d⟩ := hd
    cases hl : w.chunks.lookup cid <;> simp [resolveHit, hl, ih]

/-- C1 counterexample: a query hitting chunks of document 1 at ranks 1 and 3
and a chunk of document 2 at rank 2 — the result lists three chunk-level
entries whose parent-document identities are `[1, 2, 1]`: document 1 appears
twice, and no per-document deduplication or Document resolution happens. -/
theorem C1_counterexample :
    resultDocIds (SemanticSearch.search (fun _ _ => some [(10, 0), (11, 1), (12, 2)])
      (fun _ => [5]) "q" 3
      ⟨[(1, ⟨"Doc one", "", "", "", []⟩), (2, ⟨"Doc two", "", "", "", []⟩)],
       [(10, ⟨1, "c1", 1⟩), (11, ⟨2, "c2", 1⟩), (12, ⟨1, "c3", 2⟩)],
       [(10, [1]), (11, [2]), (12, [3])], 3, 13⟩) = [1, 2, 1] ∧
    (resultDocIds (SemanticSearch.search (fun _ _ => some [(10, 0), (11, 1), (12, 2)])
      (fun _ => [5]) "q" 3
      ⟨[(1, ⟨"Doc one", "", "", "", []⟩), (2, ⟨"Doc two", "", "", "", []⟩)],
       [(10, ⟨1, "c1", 1⟩), (11, ⟨2, "c2", 1⟩), (12, ⟨1, "c3", 2⟩)],
       [(10, [1]), (11, [2]), (12, [3])], 3, 13⟩)).count 1 = 2 := by decide

/-- C1 (amended): `search` returns one entry per resolvable chunk hit, in index
rank order — chunk-level results carrying each hit's chunk fields; hits whose
chunk record is unresolvable are skipped silently; multiple chunks of the same
parent document all stay in the result (no first-seen-wins prefilter over
document identities, no resolution to Document records); and `total_found`
counts the entries actually returned. -/
theorem C1_search_chunk_level (indexSearch : Vec → Nat → Option (List (Nat × Int)))
    (enc : String → Vec) (query : String) (limit : Nat) (w : World)
    (hits : List (Nat × Int)) (e : ChunkWithScore)
    (h : indexSearch (TextEmbedding.embed_query enc query) limit = some hits)
    (he : e ∈ hits.filterMap (resolveHit w)) :
    SemanticSearch.search indexSearch enc query limit w =
      SearchResp.result query (hits.filterMap (resolveHit w)).length
        (hits.filterMap (resolveHit w)) ∧
    (hits.filterMap (resolveHit w)).map (fun x => x.chunk.id) =
      (hits.map Prod.fst).filter (fun cid => (w.chunks.lookup cid).isSome) ∧
    w.chunks.lookup e.chunk.id =
      some ⟨e.chunk.document_id, e.chunk.content, e.chunk.position⟩ := by
  refine ⟨by simp [SemanticSearch.search, h], filterMap_resolveHit_ids w hits, ?_⟩
  rcases List.mem_filterMap.mp he with ⟨hit, _, heq⟩
  unfold resolveHit at heq
  cases hl : w.chunks.lookup hit.1 with
  | none => rw [hl] at heq; simp at heq
  | some ch =>
    rw [hl] at heq
    simp only [Option.map_some'] at heq
    injection heq with h2
    subst h2
    simpa using hl

/-- C1 witness for the amended statement, on the counterexample's world. -/
theorem C1_witness :
    ((fun (_ : Vec) (_ : Nat) => some [((10 : Nat), (0 : Int)), (11, 1), (12, 2)])
        (TextEmbedding.embed_query (fun _ => [5]) "q") 3 =
      some [((10 : Nat), (0 : Int)), (11, 1), (12, 2)]) ∧
    ((⟨⟨10, 1, "c1", 1⟩, 0⟩ : ChunkWithScore) ∈
      ([((10 : Nat), (0 : Int)), (11, 1), (12, 2)]).filterMap (resolveHit
        ⟨[(1, ⟨"Doc one", "", "", "", []⟩), (2, ⟨"Doc two", "", "", "", []⟩)],
         [(10, ⟨1, "c1", 1⟩), (11, ⟨2, "c2", 1⟩), (12, ⟨1, "c3", 2⟩)],
         [(10, [1]), (11, [2]), (12, [3])], 3, 13⟩)) ∧
    (SemanticSearch.search (fun _ _ => some [(10, 0), (11, 1), (12, 2)]) (fun _ => [5]) "q" 3
        ⟨[(1, ⟨"Doc one", "", "", "", []⟩), (2, ⟨"Doc two", "", "", "", []⟩)],
         [(10, ⟨1, "c1", 1⟩), (11, ⟨2, "c2", 1⟩), (12, ⟨1, "c3", 2⟩)],
         [(10, [1]), (11, [2]), (12, [3])], 3, 13⟩ =
      SearchResp.result "q"
        (([((10 : Nat), (0 : Int)), (11, 1), (12, 2)]).filterMap (resolveHit
          ⟨[(1, ⟨"Doc one", "", "", "", []⟩), (2, ⟨"Doc two", "", "", "", []⟩)],
           [(10, ⟨1, "c1", 1⟩), (11, ⟨2, "c2", 1⟩), (12, ⟨1, "c3", 2⟩)],
           [(10, [1]), (11, [2]), (12, [3])], 3, 13⟩)).length
        (([((10 : Nat), (0 : Int)), (11, 1), (12, 2)]).filterMap (resolveHit
          ⟨[(1, ⟨"Doc one", "", "", "", []⟩), (2, ⟨"Doc two", "", "", "", []⟩)],
           [(10, ⟨1, "c1", 1⟩), (11, ⟨2, "c2", 1⟩), (12, ⟨1, "c3", 2⟩)],
           [(10, [1]), (11, [2]), (12, [3])], 3, 13⟩)) ∧
     (([((10 : Nat), (0 : Int)), (11, 1), (12, 2)]).filterMap (resolveHit
          ⟨[(1, ⟨"Doc one", "", "", "", []⟩), (2, ⟨"Doc two", "", "", "", []⟩)],
           [(10, ⟨1, "c1", 1⟩), (11, ⟨2, "c2", 1⟩), (12, ⟨1, "c3", 2⟩)],
           [(10, [1]), (11, [2]), (12, [3])], 3, 13⟩)).map (fun x => x.chunk.id) =
       (([((10 : Nat), (0 : Int)), (11, 1), (12, 2)]).map Prod.fst).filter
         (fun cid => ((⟨[(1, ⟨"Doc one", "", "", "", []⟩), (2, ⟨"Doc two", "", "", "", []⟩)],
           [(10, ⟨1, "c1", 1⟩), (11, ⟨2, "c2", 1⟩), (12, ⟨1, "c3", 2⟩)],
           [(10, [1]), (11, [2]), (12, [3])], 3, 13⟩ : World).chunks.lookup cid).isSome) ∧
     (⟨[(1, ⟨"Doc one", "", "", "", []⟩), (2, ⟨"Doc two", "", "", "", []⟩)],
       [(10, ⟨1, "c1", 1⟩), (11, ⟨2, "c2", 1⟩), (12, ⟨1, "c3", 2⟩)],
       [(10, [1]), (11, [2]), (12, [3])], 3, 13⟩ : World).chunks.lookup
         (⟨⟨10, 1, "c1", 1⟩, 0⟩ : ChunkWithScore).chunk.id =
       some ⟨(⟨⟨10, 1, "c1", 1⟩, 0⟩ : ChunkWithScore).chunk.document_id,
         (⟨⟨10, 1, "c1", 1⟩, 0⟩ : ChunkWithScore).chunk.content,
         (⟨⟨10, 1, "c1", 1⟩, 0⟩ : ChunkWithScore).chunk.position⟩) :=
  ⟨by decide, by decide, C1_search_chunk_level (fun _ _ => some [(10, 0), (11, 1), (12, 2)])
    (fun _ => [5]) "q" 3
    ⟨[(1, ⟨"Doc one", "", "", "", []⟩), (2, ⟨"Doc two", "", "", "", []⟩)],
     [(10, ⟨1, "c1", 1⟩), (11, ⟨2, "c2", 1⟩), (12, ⟨1, "c3", 2⟩)],
     [(10, [1]), (11, [2]), (12, [3])], 3, 13⟩
    [(10, 0), (11, 1), (12, 2)] ⟨⟨10, 1, "c1", 1⟩, 0⟩ rfl (by decide)⟩

/-- C4: for an empty or whitespace-only query the query embedding is empty, and
`search` against the spec-modelled index returns a defined empty result set
(zero results), not an error outcome. -/
theorem C4_empty_query (enc : String → Vec)
    (rank : List (Nat × Vec) → Vec → Nat → List (Nat × Int)) (w : World)
    (query : String) (limit : Nat) (h : strippedEmpty query = true) :
    TextEmbedding.embed_query enc query = [] ∧
    SemanticSearch.search (victorIndexSearch rank w.index) enc query limit w =
      SearchResp.result query 0 [] := by
  have h1 : TextEmbedding.embed_query enc query = [] := by
    simp [TextEmbedding.embed_query, h]
  refine ⟨h1, ?_⟩
  simp [SemanticSearch.search, h1, victorIndexSearch]

/-- C4 witness: the whitespace-only query on a populated index. -/
theorem C4_witness :
    strippedEmpty "   " = true ∧
    (TextEmbedding.embed_query (fun _ => [7]) "   " = [] ∧
     SemanticSearch.search
        (victorIndexSearch (fun _ _ _ => [(10, 0)])
          (⟨[(1, ⟨"Doc one", "", "", "", []⟩)], [(10, ⟨1, "c1", 1⟩)], [(10, [1])], 2, 11⟩ :
            World).index)
        (fun _ => [7]) "   " 10
        ⟨[(1, ⟨"Doc one", "", "", "", []⟩)], [(10, ⟨1, "c1", 1⟩)], [(10, [1])], 2, 11⟩ =
      SearchResp.result "   " 0 []) :=
  ⟨by decide, C4_empty_query (fun _ => [7]) (fun _ _ _ => [(10, 0)])
    ⟨[(1, ⟨"Doc one", "", "", "", []⟩)], [(10, ⟨1, "c1", 1⟩)], [(10, [1])], 2, 11⟩
    "   " 10 (by decide)⟩

/-- C5 counterexample: whitespace-only input has tokenized length 0 ≤ the
target length, yet `split` returns the empty list rather than the single chunk
equal to the input. -/
theorem C5_counterexample :
    ((((fun s : String => List.range s.length) "   ").length : Int) ≤
      (TextChunker.init 256 40).target_len) ∧
    (TextChunker.init 256 40).split (fun s => List.range s.length) (fun _ => "") "   " =
      some [] ∧
    some ([] : List String) ≠ some ["   "] := by decide

/-- C5 (amended): for every non-empty, non-whitespace-only text whose tokenized
length is at most the target length, `split` returns exactly the input text as
the single chunk, unmodified. -/
theorem C5_short_single_chunk (c : TextChunker) (encode : String → List Nat)
    (decode : List Nat → String) (text : String)
    (h1 : ¬(text = "" ∨ strippedEmpty text = true))
    (h2 : ((encode text).length : Int) ≤ c.target_len) :
    c.split encode decode text = some [text] := by
  simp only [TextChunker.split]
  rw [if_neg h1, if_pos h2]

/-- C5 witness: a short two-character text. -/
theorem C5_witness :
    ¬(("hi" : String) = "" ∨ strippedEmpty "hi" = true) ∧
    ((((fun _ : String => ([] : List Nat)) "hi").length : Int) ≤
      (TextChunker.init 256 40).target_len) ∧
    (TextChunker.init 256 40).split (fun _ => []) (fun _ => "") "hi" = some ["hi"] :=
  ⟨by decide, by decide,
    C5_short_single_chunk (TextChunker.init 256 40) (fun _ => []) (fun _ => "") "hi"
      (by decide) (by decide)⟩

/-- C8 counterexample: with constructor arguments `(0, 40)` the clamped overlap
is 0, which does not lie in the empty interval `[0, target_length − 1] =
[0, −1]`; the stride is 0 and `split` on any text of more than 0 tokens raises
(the modelled `none`), so the walk does not advance. -/
theorem C8_counterexample :
    (TextChunker.init 0 40).overlap = 0 ∧
    ¬((TextChunker.init 0 40).overlap ≤ (TextChunker.init 0 40).target_len - 1) ∧
    (TextChunker.init 0 40).target_len - (TextChunker.init 0 40).overlap = 0 ∧
    (TextChunker.init 0 40).split (fun _ => [1, 2]) (fun _ => "x") "ab" = none := by decide

/-- C8 (amended): for every pair of constructor arguments with a positive
target length, the stored overlap lies in `[0, target_length − 1]`, the stride
`target_length − overlap` is at least 1, and `split` never raises (the walk
always advances). -/
theorem C8_clamp_positive_target (target_len overlap : Int) (encode : String → List Nat)
    (decode : List Nat → String) (text : String) (h : 1 ≤ target_len) :
    0 ≤ (TextChunker.init target_len overlap).overlap ∧
    (TextChunker.init target_len overlap).overlap ≤
      (TextChunker.init target_len overlap).target_len - 1 ∧
    1 ≤ (TextChunker.init target_len overlap).target_len -
      (TextChunker.init target_len overlap).overlap ∧
    ((TextChunker.init target_len overlap).split encode decode text).isSome = true := by
  have h0 : 0 ≤ (TextChunker.init target_len overlap).overlap := by
    simp only [TextChunker.init]; omega
  have h1 : (TextChunker.init target_len overlap).overlap ≤
      (TextChunker.init target_len overlap).target_len - 1 := by
    simp only [TextChunker.init]; omega
  have h2 : 1 ≤ (TextChunker.init target_len overlap).target_len -
      (TextChunker.init target_len overlap).overlap := by
    simp only [TextChunker.init]; omega
  refine ⟨h0, h1, h2, ?_⟩
  simp only [TextChunker.split]
  split_ifs with hblank hshort hzero hneg
  · simp
  · simp
  · omega
  · omega
  · simp

/-- C8 witness: the default configuration `(256, 40)` on a concrete text. -/
theorem C8_witness :
    (1 : Int) ≤ 256 ∧
    (0 ≤ (TextChunker.init 256 40).overlap ∧
     (TextChunker.init 256 40).overlap ≤ (TextChunker.init 256 40).target_len - 1 ∧
     1 ≤ (TextChunker.init 256 40).target_len - (TextChunker.init 256 40).overlap ∧
     ((TextChunker.init 256 40).split (fun _ => []) (fun _ => "") "hi").isSome = true) :=
  ⟨by decide, C8_clamp_positive_target 256 40 (fun _ => []) (fun _ => "") "hi" (by decide)⟩

/-- C9: every string in a list returned by `split` is non-empty and not
whitespace-only — the short-text path is guarded by the initial
empty/whitespace check and the windowed path filters blank decodes. -/
theorem C9_chunks_nonblank (c : TextChunker) (encode : String → List Nat)
    (decode : List Nat → String) (text : String) (out : List String) (s : String)
    (hout : c.split encode decode text = some out) (hs : s ∈ out) :
    s ≠ "" ∧ strippedEmpty s = false := by
  simp only [TextChunker.split] at hout
  split_ifs at hout with h1 h2 h3 h4
  · injection hout with h5
    rw [← h5] at hs
    simp at hs
  · injection hout with h5
    rw [← h5] at hs
    rcases List.mem_singleton.mp hs with rfl
    push_neg at h1
    exact ⟨h1.1, by simpa using h1.2⟩
  · injection hout with h5
    rw [← h5] at hs
    simp at hs
  · injection hout with h5
    rw [← h5] at hs
    have hmem := List.mem_filter.mp hs
    simp only [Bool.and_eq_true, bne_iff_ne, ne_eq, Bool.not_eq_true'] at hmem
    exact ⟨hmem.2.1, hmem.2.2⟩

/-- C9 witness: a short non-blank text yields the single non-blank chunk. -/
theorem C9_witness :
    (TextChunker.init 256 40).split (fun _ => []) (fun _ => "") "hi" = some ["hi"] ∧
    ("hi" : String) ∈ ["hi"] ∧
    (("hi" : String) ≠ "" ∧ strippedEmpty "hi" = false) :=
  ⟨by decide, by decide,
    C9_chunks_nonblank (TextChunker.init 256 40) (fun _ => []) (fun _ => "") "hi" ["hi"] "hi"
      (by decide) (by decide)⟩

/-- C10: `retrieve` is read-only — for every document identity and every
outcome (found, missing, or a raised store read) the collaborator state after
the call equals the state before. -/
theorem C10_retrieve_readonly (readOk : Bool) (document_id : Nat) (w : World) :
    (SemanticSearch.retrieve readOk document_id w).2 = w := by
  unfold SemanticSearch.retrieve
  cases readOk
  · simp
  · cases h : w.docs.lookup document_id <;> simp [h]

theorem deleteChunksLoop_docs (iD rD : Nat → Bool) (L : List (Nat × DocumentChunk)) :
    ∀ (w : World) (deleted k : Nat),
      (deleteChunksLoop iD rD L w deleted k).1.docs = w.docs := by
  induction L with
  | nil => intro w deleted k; simp [deleteChunksLoop]
  | cons hd rest ih =>
    obtain ⟨cid, ch⟩ := hd
    intro w deleted k
    by_cases hc : cid ≠ 0 ∧ iD k = true <;> by_cases hr : rD k <;>
      simp [deleteChunksLoop, hc, hr, ih]

theorem deleteChunksLoop_chunks_indep (iD iD2 rD : Nat → Bool)
    (L : List (Nat × DocumentChunk)) :
    ∀ (w w2 : World) (deleted deleted2 k : Nat), w.chunks = w2.chunks →
      (deleteChunksLoop iD rD L w deleted k).1.chunks =
        (deleteChunksLoop iD2 rD L w2 deleted2 k).1.chunks := by
  induction L with
  | nil => intro w w2 d d2 k hch; simpa [deleteChunksLoop] using hch
  | cons hd rest ih =>
    obtain ⟨cid, ch⟩ := hd
    intro w w2 d d2 k hch
    by_cases hc1 : cid ≠ 0 ∧ iD k = true <;> by_cases hc2 : cid ≠ 0 ∧ iD2 k = true <;>
      by_cases hr : rD k <;>
      simp only [deleteChunksLoop, hc1, hc2, hr, if_true, if_false] <;>
      exact ih _ _ _ _ _ (by first
        | (split_ifs <;> simp [hch])
        | simp [hch])

theorem worldIfChunks (w : World) (c : Prop) [Decidable c] (cid : Nat) :
    ((if c then { w with index := w.index.filter (fun p => p.1 != cid) } else w) : World).chunks =
      w.chunks := by
  split_ifs <;> rfl

theorem deleteChunksLoop_chunks_all (iD : Nat → Bool) (L : List (Nat × DocumentChunk)) :
    ∀ (w : World) (deleted k : Nat),
      (deleteChunksLoop iD (fun _ => true) L w deleted k).1.chunks =
        w.chunks.filter (fun p => !(L.map Prod.fst).contains p.1) := by
  induction L with
  | nil => intro w d k; simp [deleteChunksLoop]
  | cons hd rest ih =>
    obtain ⟨cid, ch⟩ := hd
    intro w d k
    have hpt : ∀ (p : Nat × DocumentChunk),
        ((!(rest.map Prod.fst).contains p.1) && (p.1 != cid)) =
          !((((cid, ch) :: rest).map Prod.fst).contains p.1) := by
      intro p
      simp [List.contains_cons, Bool.not_or, Bool.and_comm, bne]
    simp only [deleteChunksLoop, if_true]
    rw [ih]
    simp only [worldIfChunks, List.filter_filter]
    exact List.filter_congr (fun p _ => hpt p)

theorem filter_not_contains_doc_ids (l : List (Nat × DocumentChunk)) (did : Nat)
    (hnd : (l.map Prod.fst).Nodup) :
    l.filter (fun p =>
        !((l.filter (fun q => q.2.document_id == did)).map Prod.fst).contains p.1) =
      l.filter (fun p => p.2.document_id != did) := by
  apply List.filter_congr
  intro p hp
  by_cases hd : p.2.document_id = did
  · have hpin : p ∈ l.filter (fun q => q.2.document_id == did) :=
      List.mem_filter.mpr ⟨hp, by simp [hd]⟩
    have hmem : p.1 ∈ (l.filter (fun q => q.2.document_id == did)).map Prod.fst :=
      List.mem_map.mpr ⟨p, hpin, rfl⟩
    have hcont : ((l.filter (fun q => q.2.document_id == did)).map Prod.fst).contains p.1 =
        true := List.elem_iff.mpr hmem
    rw [hcont]
    simp [bne, hd]
  · have hnotin : p.1 ∉ (l.filter (fun q => q.2.document_id == did)).map Prod.fst := by
      intro hmem
      rcases List.mem_map.mp hmem with ⟨q, hq, hq1⟩
      have hql : q ∈ l := (List.mem_filter.mp hq).1
      have hqd : q.2.document_id = did := by simpa using (List.mem_filter.mp hq).2
      have heq : q = p := List.inj_on_of_nodup_map hnd hql hp hq1
      rw [heq] at hqd
      exact hd hqd
    have hcont : ((l.filter (fun q => q.2.document_id == did)).map Prod.fst).contains p.1 =
        false := by
      rw [← Bool.not_eq_true]
      intro hcc
      exact hnotin (List.elem_iff.mp hcc)
    rw [hcont]
    simp [bne, hd]

/-- C7: for an existing document, `delete` attempts the index deletion of each
chunk before its record deletion and an index-deletion failure never affects
which chunk records get deleted (the remaining chunk records are independent of
the index-deletion oracle); the Document record is deleted only after every
chunk deletion was attempted (with all record deletions succeeding, every chunk
of the document is gone from the store whatever the Document deletion oracle
says); and the call reports success exactly when the Document record deletion
succeeds, chunk-level failures notwithstanding. -/
theorem C7_delete_order_and_success (iD iD2 rD : Nat → Bool) (docDelOk : Bool)
    (document_id : Nat) (w : World) (d : Document)
    (hdoc : w.docs.lookup document_id = some d)
    (hnd : (w.chunks.map Prod.fst).Nodup) :
    ((SemanticSearch.delete true iD rD docDelOk document_id w).1.isSuccess = docDelOk) ∧
    ((SemanticSearch.delete true iD rD docDelOk document_id w).2.chunks =
      (SemanticSearch.delete true iD2 rD docDelOk document_id w).2.chunks) ∧
    ((SemanticSearch.delete true iD rD docDelOk document_id w).2.docs =
      (if docDelOk then w.docs.filter (fun p => p.1 != document_id) else w.docs)) ∧
    ((SemanticSearch.delete true iD (fun _ => true) docDelOk document_id w).2.chunks =
      w.chunks.filter (fun p => p.2.document_id != document_id)) := by
  simp only [SemanticSearch.delete, hdoc, if_true]
  refine ⟨?_, ?_, ?_, ?_⟩
  · cases docDelOk <;> simp [Outcome.isSuccess]
  · cases docDelOk <;>
      simp only [Bool.false_eq_true, if_false, if_true] <;>
      exact deleteChunksLoop_chunks_indep iD iD2 rD _ w w 0 0 0 rfl
  · cases docDelOk <;> simp [deleteChunksLoop_docs]
  · cases docDelOk <;>
      simp only [Bool.false_eq_true, if_false, if_true] <;>
      rw [deleteChunksLoop_chunks_all] <;>
      exact filter_not_contains_doc_ids w.chunks document_id hnd

/-- C7 witness: a document with two chunks (one belonging to another document),
index deletions failing, record deletions and the document deletion
succeeding. -/
theorem C7_witness :
    ((⟨[(1, ⟨"D", "", "", "", []⟩)], [(5, ⟨1, "c", 1⟩), (6, ⟨2, "d", 1⟩)],
        [(5, [1]), (6, [2])], 2, 7⟩ : World).docs.lookup 1 = some ⟨"D", "", "", "", []⟩) ∧
    (((⟨[(1, ⟨"D", "", "", "", []⟩)], [(5, ⟨1, "c", 1⟩), (6, ⟨2, "d", 1⟩)],
        [(5, [1]), (6, [2])], 2, 7⟩ : World).chunks.map Prod.fst).Nodup) ∧
    (((SemanticSearch.delete true (fun _ => false) (fun _ => true) true 1
        ⟨[(1, ⟨"D", "", "", "", []⟩)], [(5, ⟨1, "c", 1⟩), (6, ⟨2, "d", 1⟩)],
         [(5, [1]), (6, [2])], 2, 7⟩).1.isSuccess = true) ∧
     ((SemanticSearch.delete true (fun _ => false) (fun _ => true) true 1
        ⟨[(1, ⟨"D", "", "", "", []⟩)], [(5, ⟨1, "c", 1⟩), (6, ⟨2, "d", 1⟩)],
         [(5, [1]), (6, [2])], 2, 7⟩).2.chunks =
       (SemanticSearch.delete true (fun _ => true) (fun _ => true) true 1
        ⟨[(1, ⟨"D", "", "", "", []⟩)], [(5, ⟨1, "c", 1⟩), (6, ⟨2, "d", 1⟩)],
         [(5, [1]), (6, [2])], 2, 7⟩).2.chunks) ∧
     ((SemanticSearch.delete true (fun _ => false) (fun _ => true) true 1
        ⟨[(1, ⟨"D", "", "", "", []⟩)], [(5, ⟨1, "c", 1⟩), (6, ⟨2, "d", 1⟩)],
         [(5, [1]), (6, [2])], 2, 7⟩).2.docs =
       (if true then
          ((⟨[(1, ⟨"D", "", "", "", []⟩)], [(5, ⟨1, "c", 1⟩), (6, ⟨2, "d", 1⟩)],
            [(5, [1]), (6, [2])], 2, 7⟩ : World)).docs.filter (fun p => p.1 != 1)
        else ((⟨[(1, ⟨"D", "", "", "", []⟩)], [(5, ⟨1, "c", 1⟩), (6, ⟨2, "d", 1⟩)],
            [(5, [1]), (6, [2])], 2, 7⟩ : World)).docs)) ∧
     ((SemanticSearch.delete true (fun _ => false) (fun _ => true) true 1
        ⟨[(1, ⟨"D", "", "", "", []⟩)], [(5, ⟨1, "c", 1⟩), (6, ⟨2, "d", 1⟩)],
         [(5, [1]), (6, [2])], 2, 7⟩).2.chunks =
       ((⟨[(1, ⟨"D", "", "", "", []⟩)], [(5, ⟨1, "c", 1⟩), (6, ⟨2, "d", 1⟩)],
          [(5, [1]), (6, [2])], 2, 7⟩ : World)).chunks.filter
         (fun p => p.2.document_id != 1))) :=
  ⟨by decide, by decide,
    C7_delete_order_and_success (fun _ => false) (fun _ => true) (fun _ => true) true 1
      ⟨[(1, ⟨"D", "", "", "", []⟩)], [(5, ⟨1, "c", 1⟩), (6, ⟨2, "d", 1⟩)],
       [(5, [1]), (6, [2])], 2, 7⟩ ⟨"D", "", "", "", []⟩ (by decide) (by decide)⟩
